import Mathlib

/- Verification of the feature-building step (clean_data) of turo_takehome.py.

   Data frames are modelled shallowly: a frame is a list of column labels and
   a list of rows, each row an index label (the vehicle_id) together with a
   list of cells; a cell is an optional integer, none modelling a missing
   value (NaN).  Numeric data is idealised as exact integers (prices and counts in this data set are integral, and the subtraction the script performs is exact).

   Column labels are either plain names or the dummy columns produced by
   pd.get_dummies on the reservation_type column (res_type_<v>); the two kinds
   can never collide, which the inductive encoding captures.

   Column-selection semantics follow the pandas releases able to run this
   (Python 2) script: selecting a single missing label raises KeyError, while
   selecting a list of labels raises only when none of the labels is present;
   missing labels among present ones yield all-NaN columns. -/

abbrev Cell := Option ℤ

inductive Col where
  | named (s : String)
  | resType (v : ℤ)
  deriving DecidableEq, Repr

inductive PdError where
  | keyError (c : Col)
  | keyErrorList (cs : List Col)
  deriving DecidableEq, Repr

structure DF where
  cols : List Col
  rows : List (ℤ × List Cell)
  deriving DecidableEq, Repr

deriving instance DecidableEq for Except

/-- Position of a column label in a column list (first occurrence). -/
def idxOf (c : Col) : List Col → Option ℕ
  | [] => none
  | d :: ds => if d = c then some 0 else (idxOf c ds).map Nat.succ

/-- df[c] for a single label: KeyError when the label is missing. -/
def DF.getCol (df : DF) (c : Col) : Except PdError (List (ℤ × Cell)) :=
  match idxOf c df.cols with
  | none => Except.error (PdError.keyError c)
  | some i => Except.ok (df.rows.map (fun r => (r.1, r.2.getD i none)))

/-- Label selection as part of list-of-labels selection: a missing label
    yields an all-NaN column (reindex semantics of the pandas era this
    Python 2 script runs on). -/
def DF.getColD (df : DF) (c : Col) : List (ℤ × Cell) :=
  match idxOf c df.cols with
  | none => df.rows.map (fun r => (r.1, none))
  | some i => df.rows.map (fun r => (r.1, r.2.getD i none))

/-- The distinct non-NaN values of a series, the categories of get_dummies. -/
def dummyVals (s : List (ℤ × Cell)) : List ℤ :=
  (s.filterMap (fun r => r.2)).dedup

def dummyCols (s : List (ℤ × Cell)) : List Col :=
  (dummyVals s).map Col.resType

/-- One row of the dummy frame: indicator of each category (NaN gives all 0). -/
def dummyRow (s : List (ℤ × Cell)) (c : Cell) : List Cell :=
  (dummyVals s).map (fun v => some (if c = some v then (1 : ℤ) else 0))

/-- pd.get_dummies(series, prefixed res_type): one indicator column per
    distinct value of the series, rows aligned with the series. -/
def get_dummies (s : List (ℤ × Cell)) : DF :=
  { cols := dummyCols s
    rows := s.map (fun r => (r.1, dummyRow s r.2)) }

/-- df[c] = constant (res['reservation'] = 1): replaces the column when the
    label exists, appends it otherwise. -/
def DF.setConstCol (df : DF) (c : Col) (q : ℤ) : DF :=
  match idxOf c df.cols with
  | some i => { cols := df.cols, rows := df.rows.map (fun r => (r.1, r.2.set i (some q))) }
  | none => { cols := df.cols ++ [c], rows := df.rows.map (fun r => (r.1, r.2 ++ [some q])) }

/-- Pointwise row addition used by the groupby sum (NaN counts as 0; the
    summed frame holds only 0/1 indicator cells, so this is exact). -/
def addCells (a b : List Cell) : List Cell :=
  List.zipWith (fun x y => some (x.getD 0 + y.getD 0)) a b

def zeroRow (df : DF) : List Cell :=
  df.cols.map (fun _ => some (0 : ℤ))

/-- res.groupby(level =  vehicle_id).sum(): one row per distinct index label,
    cells summed over the group. -/
def DF.groupbySum (df : DF) : DF :=
  { cols := df.cols
    rows := ((df.rows.map Prod.fst).dedup).map (fun k =>
      (k, ((df.rows.filter (fun r => r.1 = k)).map Prod.snd).foldl addCells (zeroRow df))) }

/-- Index-aligned lookup of a series value for a given label. -/
def seriesLookup (s : List (ℤ × Cell)) (k : ℤ) : Cell :=
  match s.find? (fun r => r.1 = k) with
  | some r => r.2
  | none => none

/-- df[c] = series: index-aligned assignment; labels of df absent from the
    series get NaN, series labels absent from df are dropped. -/
def DF.setColAligned (df : DF) (c : Col) (s : List (ℤ × Cell)) : DF :=
  match idxOf c df.cols with
  | some i => { cols := df.cols, rows := df.rows.map (fun r => (r.1, r.2.set i (seriesLookup s r.1))) }
  | none => { cols := df.cols ++ [c], rows := df.rows.map (fun r => (r.1, r.2 ++ [seriesLookup s r.1])) }

/-- df.fillna(0): every NaN cell becomes 0. -/
def DF.fillna (df : DF) (q : ℤ) : DF :=
  { cols := df.cols
    rows := df.rows.map (fun r => (r.1, r.2.map (fun c => some (c.getD q)))) }

/-- Cell subtraction with NaN propagation. -/
def subCell (a b : Cell) : Cell :=
  match a, b with
  | some x, some y => some (x - y)
  | _, _ => none

/-- df[c] = positional values (a series computed from df itself, so its index
    coincides with the frame's and alignment is positional). -/
def DF.setColValues (df : DF) (c : Col) (vals : List Cell) : DF :=
  match idxOf c df.cols with
  | some i => { cols := df.cols, rows := (df.rows.zip vals).map (fun rv => (rv.1.1, rv.1.2.set i rv.2)) }
  | none => { cols := df.cols ++ [c], rows := (df.rows.zip vals).map (fun rv => (rv.1.1, rv.1.2 ++ [rv.2])) }

/-- The three hardcoded per-type columns of the script (line 26). -/
def res_types : List Col := [Col.resType 1, Col.resType 2, Col.resType 3]

/-- The body of clean_data (lines 21-35 of turo_takehome.py), with the state
    of the two argument frames made explicit: the result is the returned
    value (or the raised error) together with the post-call states of
    reservation_df and vehicle_df.  reservation_df is never written to; the
    vehicle frame is updated in place, also on the error paths that are
    reached after the first assignment to it has already happened. -/
def clean_data_run (reservation_df vehicle_df : DF) : Except PdError DF × DF × DF :=
  match DF.getCol reservation_df (Col.named "reservation_type") with
  | Except.error e => (Except.error e, reservation_df, vehicle_df)
  | Except.ok s =>
    let res0 := get_dummies s
    let res1 := DF.setConstCol res0 (Col.named "reservation") 1
    let res_by_vehicle := DF.groupbySum res1
    match DF.getCol res_by_vehicle (Col.named "reservation") with
    | Except.error e => (Except.error e, reservation_df, vehicle_df)
    | Except.ok total_series =>
      let v1 := DF.setColAligned vehicle_df (Col.named "total_reservations") total_series
      if Col.resType 1 ∈ res_by_vehicle.cols ∨ Col.resType 2 ∈ res_by_vehicle.cols ∨
          Col.resType 3 ∈ res_by_vehicle.cols then
        let v2 := DF.setColAligned v1 (Col.resType 1) (DF.getColD res_by_vehicle (Col.resType 1))
        let v3 := DF.setColAligned v2 (Col.resType 2) (DF.getColD res_by_vehicle (Col.resType 2))
        let v4 := DF.setColAligned v3 (Col.resType 3) (DF.getColD res_by_vehicle (Col.resType 3))
        let v5 := DF.fillna v4 0
        match DF.getCol v5 (Col.named "actual_price") with
        | Except.error e => (Except.error e, reservation_df, v5)
        | Except.ok ap =>
          match DF.getCol v5 (Col.named "recommended_price") with
          | Except.error e => (Except.error e, reservation_df, v5)
          | Except.ok rp =>
            let pdiff := List.zipWith (fun a b => subCell a.2 b.2) ap rp
            let v6 := DF.setColValues v5 (Col.named "price_difference") pdiff
            (Except.ok v6, reservation_df, v6)
      else
        (Except.error (PdError.keyErrorList res_types), reservation_df, v1)

/-- clean_data(reservation_df, vehicle_df): the returned value. -/
def clean_data (reservation_df vehicle_df : DF) : Except PdError DF :=
  (clean_data_run reservation_df vehicle_df).1

/-- Value of a cell of the frame at index label k and column c: none when the
    column or the label is absent, some cell otherwise (the cell itself still
    being none when the stored value is NaN). -/
def DF.cellAt (df : DF) (k : ℤ) (c : Col) : Option Cell :=
  match idxOf c df.cols, df.rows.find? (fun r => r.1 = k) with
  | some i, some r => some (r.2.getD i none)
  | _, _ => none

/-- The distinct vehicle ids of a reservation series, the groupby keys. -/
def sKeys (s : List (ℤ × Cell)) : List ℤ :=
  (s.map Prod.fst).dedup

/-- Number of reservation rows of a series that belong to vehicle k. -/
def resCount (s : List (ℤ × Cell)) (k : ℤ) : ℤ :=
  ((s.filter (fun r => r.1 = k)).length : ℤ)

/-- Number of reservation rows of a series that belong to vehicle k and have
    reservation type v. -/
def typeCount (s : List (ℤ × Cell)) (k : ℤ) (v : ℤ) : ℤ :=
  (((s.filter (fun r => r.1 = k)).filter (fun r => r.2 = some v)).length : ℤ)

/-- Number of cells of a list equal to some v. -/
def countCell (v : ℤ) (ts : List Cell) : ℤ :=
  ((ts.filter (fun c => c = some v)).length : ℤ)

/-- Number of reservation rows of a series for vehicle k whose type lies
    outside the fixed three-category set (a NaN type also counts here). -/
def outOfSetCount (s : List (ℤ × Cell)) (k : ℤ) : ℤ :=
  (((s.filter (fun r => r.1 = k)).filter
      (fun r => r.2 ≠ some 1 ∧ r.2 ≠ some 2 ∧ r.2 ≠ some 3)).length : ℤ)

/-- Value of a cell of a raw row under a column list, a missing column or a
    NaN cell reading as 0 (the value the script sees after its fillna). -/
def rowVal (cols : List Col) (cells : List Cell) (c : Col) : ℤ :=
  (match idxOf c cols with
   | some i => cells.getD i none
   | none => none).getD 0

/-- The closed form of the frame clean_data produces on its success path. -/
def cleanOutput (V : DF) (s : List (ℤ × Cell)) : DF :=
  { cols := V.cols ++ [Col.named "total_reservations", Col.resType 1, Col.resType 2,
      Col.resType 3, Col.named "price_difference"]
    rows := V.rows.map (fun r => (r.1,
      r.2.map (fun c => some (c.getD 0))
      ++ [some (resCount s r.1), some (typeCount s r.1 1), some (typeCount s r.1 2),
          some (typeCount s r.1 3),
          some (rowVal V.cols r.2 (Col.named "actual_price") -
                rowVal V.cols r.2 (Col.named "recommended_price"))])) }

/-- Well-formedness of a vehicle frame: rows have full width and the derived
    columns the script inserts are not already present. -/
def VehicleSchemaOK (V : DF) : Prop :=
  (∀ r ∈ V.rows, r.2.length = V.cols.length) ∧
  Col.named "total_reservations" ∉ V.cols ∧
  Col.resType 1 ∉ V.cols ∧ Col.resType 2 ∉ V.cols ∧ Col.resType 3 ∉ V.cols ∧
  Col.named "price_difference" ∉ V.cols

instance (V : DF) : Decidable (VehicleSchemaOK V) := by
  unfold VehicleSchemaOK; infer_instance

/-! ### Concrete frames used to instantiate the theorems -/

/-- The reservation table of the worked example: three reservations for
    vehicle 1 of types A, A, B (categories 1, 1, 2), none for vehicle 2. -/
def reservationExample : DF :=
  { cols := [Col.named "reservation_type"]
    rows := [(1, [some 1]), (1, [some 1]), (1, [some 2])] }

/-- The vehicle table of the worked example. -/
def vehicleExample : DF :=
  { cols := [Col.named "actual_price", Col.named "recommended_price"]
    rows := [(1, [some 100, some 80]), (2, [some 50, some 60])] }

/-- The output frame the spec's example expects. -/
def cleanedExample : DF :=
  { cols := [Col.named "actual_price", Col.named "recommended_price",
             Col.named "total_reservations", Col.resType 1, Col.resType 2,
             Col.resType 3, Col.named "price_difference"]
    rows := [(1, [some 100, some 80, some 3, some 2, some 1, some 0, some 20]),
             (2, [some 50, some 60, some 0, some 0, some 0, some 0, some (-10)])] }

/-- A reservation table with types 1 and 2 present but type 3 absent. -/
def reservationNoType3 : DF :=
  { cols := [Col.named "reservation_type"]
    rows := [(1, [some 1]), (1, [some 2])] }

/-- A one-vehicle table. -/
def vehicleSmall : DF :=
  { cols := [Col.named "actual_price", Col.named "recommended_price"]
    rows := [(1, [some 10, some 4])] }

/-- A reservation table whose second row is an orphan (vehicle 9 does not
    appear in vehicleSmall). -/
def reservationWithOrphan : DF :=
  { cols := [Col.named "reservation_type"]
    rows := [(1, [some 1]), (9, [some 2])] }

/-- The same reservation table with the orphan row removed. -/
def reservationNoOrphan : DF :=
  { cols := [Col.named "reservation_type"]
    rows := [(1, [some 1])] }

/-- An empty reservation table (no category at all occurs in it). -/
def reservationEmpty : DF :=
  { cols := [Col.named "reservation_type"]
    rows := [] }

/-- A vehicle table missing the actual_price column. -/
def vehicleNoActual : DF :=
  { cols := [Col.named "recommended_price"]
    rows := [(1, [some 3])] }

/-- A vehicle table with a NaN actual_price for vehicle 1. -/
def vehicleNaNPrice : DF :=
  { cols := [Col.named "actual_price", Col.named "recommended_price"]
    rows := [(1, [none, some 7])] }

/-- A one-row reservation table of type 1 for vehicle 1. -/
def reservationOne : DF :=
  { cols := [Col.named "reservation_type"]
    rows := [(1, [some 1])] }

/-! ### List-level helper lemmas -/

theorem getD_append_len_add {α : Type _} (a b : List α) (d : α) (i : ℕ) :
    (a ++ b).getD (a.length + i) d = b.getD i d := by
  rw [List.getD_append_right _ _ _ _ (Nat.le_add_right _ _)]
  simp

theorem zipWith_map_same {α β γ δ : Type _} (f : β → γ → δ) (g : α → β) (h : α → γ)
    (l : List α) : List.zipWith f (l.map g) (l.map h) = l.map (fun x => f (g x) (h x)) := by
  induction l with
  | nil => rfl
  | cons x xs ih => simp [ih]

theorem filter_eq_fst_map {α β : Type _} (G : (ℤ × α) → β) (l : List (ℤ × α)) (k : ℤ) :
    (l.map (fun r => (r.1, G r))).filter (fun r => r.1 = k)
      = (l.filter (fun r => r.1 = k)).map (fun r => (r.1, G r)) := by
  induction l with
  | nil => rfl
  | cons x xs ih =>
    by_cases h : x.1 = k <;> simp [List.filter_cons, h, ih]

theorem find_eq_fst_map {α β : Type _} (G : (ℤ × α) → β) (l : List (ℤ × α)) (k : ℤ) :
    (l.map (fun r => (r.1, G r))).find? (fun r => r.1 = k)
      = (l.find? (fun r => r.1 = k)).map (fun r => (r.1, G r)) := by
  induction l with
  | nil => rfl
  | cons x xs ih =>
    by_cases h : x.1 = k <;> simp [List.find?_cons, h, ih]

theorem map_fst_map {α β : Type _} (G : (ℤ × α) → β) (l : List (ℤ × α)) :
    (l.map (fun r => (r.1, G r))).map Prod.fst = l.map Prod.fst := by
  induction l with
  | nil => rfl
  | cons x xs ih => simp_all

theorem seriesLookup_map_keys (F : ℤ → Cell) (keys : List ℤ) (x : ℤ) :
    seriesLookup (keys.map (fun k => (k, F k))) x = if x ∈ keys then F x else none := by
  induction keys with
  | nil => simp [seriesLookup]
  | cons a ks ih =>
    by_cases h : a = x
    · subst h
      simp [seriesLookup, List.find?_cons]
    · have h2 : ¬ x = a := fun hh => h hh.symm
      simp only [seriesLookup, List.map_cons, List.find?_cons] at *
      simp only [decide_eq_true_eq, h, if_false, List.mem_cons, h2, false_or] at *
      simpa [h] using ih

theorem find?_fst_of_mem {α : Type _} (l : List (ℤ × α)) (k : ℤ)
    (h : k ∈ l.map Prod.fst) :
    ∃ r, l.find? (fun r => r.1 = k) = some r ∧ r.1 = k := by
  induction l with
  | nil => simp at h
  | cons a as ih =>
    by_cases ha : a.1 = k
    · exact ⟨a, by simp [List.find?_cons, ha], ha⟩
    · rcases List.mem_cons.mp h with h1 | h1
      · exact absurd h1.symm ha
      · obtain ⟨r, hr, hrk⟩ := ih h1
        exact ⟨r, by simp [List.find?_cons, ha, hr], hrk⟩

/-! ### idxOf lemmas -/

theorem idxOf_eq_none_iff (c : Col) (l : List Col) : idxOf c l = none ↔ c ∉ l := by
  induction l with
  | nil => simp [idxOf]
  | cons d ds ih =>
    by_cases h : d = c
    · simp [idxOf, h]
    · have h2 : ¬ c = d := fun hh => h hh.symm
      simp [idxOf, h, ih, Option.map_eq_none', List.mem_cons, h2]

theorem idxOf_some_of_mem (c : Col) (l : List Col) (h : c ∈ l) :
    ∃ i, idxOf c l = some i := by
  cases hi : idxOf c l with
  | none => exact absurd ((idxOf_eq_none_iff c l).mp hi) (by simpa using h)
  | some i => exact ⟨i, rfl⟩

theorem idxOf_lt_length (c : Col) (l : List Col) (i : ℕ) (h : idxOf c l = some i) :
    i < l.length := by
  induction l generalizing i with
  | nil => simp [idxOf] at h
  | cons d ds ih =>
    by_cases hd : d = c
    · simp [idxOf, hd] at h
      simp only [List.length_cons]
      omega
    · simp only [idxOf, hd, if_false, Option.map_eq_some'] at h
      obtain ⟨j, hj, rfl⟩ := h
      have := ih j hj
      simp only [List.length_cons]
      omega

theorem idxOf_append_left (c : Col) (l₁ l₂ : List Col) (h : c ∈ l₁) :
    idxOf c (l₁ ++ l₂) = idxOf c l₁ := by
  induction l₁ with
  | nil => simp at h
  | cons d ds ih =>
    by_cases hd : d = c
    · simp [idxOf, hd]
    · have h2 : c ∈ ds := by
        rcases List.mem_cons.mp h with h1 | h1
        · exact absurd h1.symm hd
        · exact h1
      simp [idxOf, hd, ih h2]

theorem idxOf_append_right (c : Col) (l₁ l₂ : List Col) (h : c ∉ l₁) :
    idxOf c (l₁ ++ l₂) = (idxOf c l₂).map (fun i => l₁.length + i) := by
  induction l₁ with
  | nil =>
    simp only [List.nil_append, List.length_nil]
    cases idxOf c l₂ <;> simp
  | cons d ds ih =>
    have hd : d ≠ c := fun hh => h (by simp [hh])
    have h2 : c ∉ ds := fun hh => h (by simp [hh])
    rw [List.cons_append]
    simp only [idxOf, hd, if_false, ih h2]
    cases idxOf c l₂ <;> simp <;> omega

theorem named_not_mem_dummyCols (t : String) (s : List (ℤ × Cell)) :
    Col.named t ∉ dummyCols s := by
  intro h
  rcases List.mem_map.mp h with ⟨v, _, hv⟩
  exact Col.noConfusion hv

theorem resType_mem_dummyCols (v : ℤ) (s : List (ℤ × Cell)) :
    Col.resType v ∈ dummyCols s ↔ v ∈ dummyVals s := by
  simp [dummyCols, List.mem_map, Col.resType.injEq]

theorem idxOf_resType_map (vals : List ℤ) (v : ℤ) (hv : v ∈ vals) :
    ∃ i, idxOf (Col.resType v) (vals.map Col.resType) = some i ∧
      ∀ g : ℤ → Cell, (vals.map g).getD i none = g v := by
  induction vals with
  | nil => simp at hv
  | cons w ws ih =>
    by_cases hw : w = v
    · subst hw
      exact ⟨0, by simp [idxOf], fun g => by simp⟩
    · have hv2 : v ∈ ws := by
        rcases List.mem_cons.mp hv with h1 | h1
        · exact absurd h1.symm hw
        · exact h1
      obtain ⟨i, hi, hg⟩ := ih hv2
      refine ⟨i + 1, ?_, fun g => ?_⟩
      · simp [idxOf, Col.resType.injEq, hw, hi]
      · simpa using hg g

/-! ### Counting lemmas -/

theorem resCount_zero_of_not_mem (s : List (ℤ × Cell)) (k : ℤ)
    (h : k ∉ s.map Prod.fst) : resCount s k = 0 := by
  unfold resCount
  have : s.filter (fun r => r.1 = k) = [] := by
    rw [List.filter_eq_nil_iff]
    intro r hr
    simp only [decide_eq_true_eq]
    intro hk
    exact h (List.mem_map.mpr ⟨r, hr, hk⟩)
  simp [this]

theorem typeCount_zero_of_not_mem (s : List (ℤ × Cell)) (k : ℤ)
    (h : k ∉ s.map Prod.fst) (v : ℤ) : typeCount s k v = 0 := by
  unfold typeCount
  have : s.filter (fun r => r.1 = k) = [] := by
    rw [List.filter_eq_nil_iff]
    intro r hr
    simp only [decide_eq_true_eq]
    intro hk
    exact h (List.mem_map.mpr ⟨r, hr, hk⟩)
  simp [this]

theorem typeCount_zero_of_not_val (s : List (ℤ × Cell)) (k : ℤ) (v : ℤ)
    (h : v ∉ dummyVals s) : typeCount s k v = 0 := by
  unfold typeCount
  have : (s.filter (fun r => r.1 = k)).filter (fun r => r.2 = some v) = [] := by
    rw [List.filter_eq_nil_iff]
    intro r hr
    simp only [decide_eq_true_eq]
    intro hv
    exact h (by
      unfold dummyVals
      rw [List.mem_dedup]
      exact List.mem_filterMap.mpr ⟨r, List.mem_of_mem_filter hr, by rw [hv]⟩)
  simp [this]

theorem addCells_map_map (l : List ℤ) (f g : ℤ → Cell) :
    addCells (l.map f) (l.map g) = l.map (fun v => some ((f v).getD 0 + (g v).getD 0)) :=
  zipWith_map_same _ f g l

theorem foldl_addCells_dummy (vals : List ℤ) (ts : List Cell) (g : ℤ → ℤ) (m : ℤ) :
    ((ts.map (fun c => (vals.map (fun v => some (if c = some v then (1:ℤ) else 0))) ++
        [some (1:ℤ)])).foldl addCells (vals.map (fun v => some (g v)) ++ [some m]))
      = vals.map (fun v => some (g v + countCell v ts)) ++ [some (m + ts.length)] := by
  induction ts generalizing g m with
  | nil => simp [countCell]
  | cons c cs ih =>
    rw [List.map_cons, List.foldl_cons]
    have step : addCells (vals.map (fun v => some (g v)) ++ [some m])
        (vals.map (fun v => some (if c = some v then (1:ℤ) else 0)) ++ [some 1])
        = vals.map (fun v => some (g v + (if c = some v then (1:ℤ) else 0))) ++ [some (m + 1)] := by
      unfold addCells
      rw [List.zipWith_append _ _ _ _ _ (by simp)]
      congr 1
      rw [zipWith_map_same]
      simp
    rw [step, ih]
    congr 1
    · refine List.map_congr_left (fun v _ => ?_)
      have : g v + (if c = some v then (1:ℤ) else 0) + countCell v cs
          = g v + countCell v (c :: cs) := by
        by_cases h : c = some v <;> simp [countCell, List.filter_cons, h] <;> push_cast <;> ring
      rw [this]
    · simp only [List.length_cons]
      push_cast
      ring_nf

/-! ### Frame-operation lemmas -/

theorem getD_append_singleton {α : Type _} (a : List α) (x d : α) :
    (a ++ [x]).getD a.length d = x := by
  simpa using getD_append_len_add a [x] d 0

theorem getD_map_fill (cells : List Cell) (i : ℕ) (h : i < cells.length) :
    (cells.map (fun c => some (c.getD (0:ℤ)))).getD i none = some ((cells.getD i none).getD 0) := by
  induction cells generalizing i with
  | nil => simp at h
  | cons c cs ih =>
    cases i with
    | zero => simp
    | succ j => simpa using ih j (by simpa using h)

theorem rowVal_eq (cols : List Col) (cells : List Cell) (c : Col) (i : ℕ)
    (hi : idxOf c cols = some i) : rowVal cols cells c = (cells.getD i none).getD 0 := by
  unfold rowVal
  rw [hi]

theorem setConstCol_fresh (df : DF) (c : Col) (q : ℤ) (h : c ∉ df.cols) :
    df.setConstCol c q
      = ⟨df.cols ++ [c], df.rows.map (fun r => (r.1, r.2 ++ [some q]))⟩ := by
  unfold DF.setConstCol
  rw [(idxOf_eq_none_iff c df.cols).mpr h]

theorem setColAligned_fresh (df : DF) (c : Col) (s : List (ℤ × Cell)) (h : c ∉ df.cols) :
    df.setColAligned c s
      = ⟨df.cols ++ [c], df.rows.map (fun r => (r.1, r.2 ++ [seriesLookup s r.1]))⟩ := by
  unfold DF.setColAligned
  rw [(idxOf_eq_none_iff c df.cols).mpr h]

theorem setColValues_fresh (df : DF) (c : Col) (vals : List Cell) (h : c ∉ df.cols) :
    df.setColValues c vals
      = ⟨df.cols ++ [c], (df.rows.zip vals).map (fun rv => (rv.1.1, rv.1.2 ++ [rv.2]))⟩ := by
  unfold DF.setColValues
  rw [(idxOf_eq_none_iff c df.cols).mpr h]

theorem res1_eq (s : List (ℤ × Cell)) :
    (get_dummies s).setConstCol (Col.named "reservation") 1
      = ⟨dummyCols s ++ [Col.named "reservation"],
         s.map (fun r => (r.1, dummyRow s r.2 ++ [some 1]))⟩ := by
  rw [setConstCol_fresh _ _ _ (named_not_mem_dummyCols _ s)]
  unfold get_dummies
  simp [List.map_map, Function.comp]

theorem countCell_snd_filter (s : List (ℤ × Cell)) (k : ℤ) (v : ℤ) :
    countCell v ((s.filter (fun r => r.1 = k)).map Prod.snd) = typeCount s k v := by
  unfold countCell typeCount
  rw [List.filter_map]
  simp [Function.comp]

theorem res_by_eq (s : List (ℤ × Cell)) :
    DF.groupbySum ⟨dummyCols s ++ [Col.named "reservation"],
        s.map (fun r => (r.1, dummyRow s r.2 ++ [some 1]))⟩
      = ⟨dummyCols s ++ [Col.named "reservation"],
         (sKeys s).map (fun k => (k,
           (dummyVals s).map (fun v => some (typeCount s k v)) ++ [some (resCount s k)]))⟩ := by
  unfold DF.groupbySum
  congr 1
  rw [map_fst_map]
  refine List.map_congr_left (fun k _ => ?_)
  congr 1
  rw [filter_eq_fst_map]
  have hrows : ((s.filter (fun r => r.1 = k)).map
        (fun r => (r.1, dummyRow s r.2 ++ [some (1:ℤ)]))).map Prod.snd
      = ((s.filter (fun r => r.1 = k)).map Prod.snd).map
          (fun c => (dummyVals s).map (fun v => some (if c = some v then (1:ℤ) else 0)) ++ [some 1]) := by
    simp [List.map_map, Function.comp, dummyRow]
  rw [hrows]
  have hzero : zeroRow ⟨dummyCols s ++ [Col.named "reservation"],
      s.map (fun r => (r.1, dummyRow s r.2 ++ [some 1]))⟩
      = (dummyVals s).map (fun v => some ((fun _ : ℤ => (0:ℤ)) v)) ++ [some 0] := by
    unfold zeroRow dummyCols
    rw [List.map_append, List.map_map]
    rfl
  rw [hzero, foldl_addCells_dummy]
  congr 1
  · refine List.map_congr_left (fun v _ => ?_)
    rw [countCell_snd_filter]
    norm_num
  · rw [List.length_map]
    unfold resCount
    norm_num

theorem getCol_res_by_reservation (s : List (ℤ × Cell)) :
    DF.getCol ⟨dummyCols s ++ [Col.named "reservation"],
        (sKeys s).map (fun k => (k,
          (dummyVals s).map (fun v => some (typeCount s k v)) ++ [some (resCount s k)]))⟩
      (Col.named "reservation")
      = Except.ok ((sKeys s).map (fun k => (k, some (resCount s k)))) := by
  have hidx : idxOf (Col.named "reservation") (dummyCols s ++ [Col.named "reservation"])
      = some (dummyCols s).length := by
    rw [idxOf_append_right _ _ _ (named_not_mem_dummyCols _ s)]
    simp [idxOf]
  simp only [DF.getCol, hidx, List.map_map]
  congr 1
  refine List.map_congr_left (fun k _ => ?_)
  simp only [Function.comp_apply]
  congr 1
  have hl : (dummyCols s).length
      = ((dummyVals s).map (fun v => some (typeCount s k v))).length := by
    simp [dummyCols]
  rw [hl, getD_append_singleton]

theorem getColD_res_by_resType (s : List (ℤ × Cell)) (v : ℤ) :
    DF.getColD ⟨dummyCols s ++ [Col.named "reservation"],
        (sKeys s).map (fun k => (k,
          (dummyVals s).map (fun w => some (typeCount s k w)) ++ [some (resCount s k)]))⟩
      (Col.resType v)
      = (sKeys s).map (fun k =>
          (k, if v ∈ dummyVals s then some (typeCount s k v) else none)) := by
  by_cases hv : v ∈ dummyVals s
  · obtain ⟨i, hi, hg⟩ := idxOf_resType_map (dummyVals s) v hv
    have hilt : i < (dummyVals s).length := by
      have := idxOf_lt_length _ _ _ hi
      simpa using this
    have hidx : idxOf (Col.resType v) (dummyCols s ++ [Col.named "reservation"]) = some i := by
      rw [idxOf_append_left _ _ _ ((resType_mem_dummyCols v s).mpr hv)]
      exact hi
    simp only [DF.getColD, hidx, List.map_map]
    refine List.map_congr_left (fun k _ => ?_)
    simp only [Function.comp_apply, hv, if_true]
    congr 1
    rw [List.getD_append _ _ _ _ (by simpa using hilt)]
    exact hg (fun w => some (typeCount s k w))
  · have hidx : idxOf (Col.resType v) (dummyCols s ++ [Col.named "reservation"]) = none := by
      rw [idxOf_eq_none_iff]
      simp [resType_mem_dummyCols, hv]
    simp only [DF.getColD, hidx, List.map_map]
    refine List.map_congr_left (fun k _ => ?_)
    simp [Function.comp, hv]

theorem lookup_total_fill (s : List (ℤ × Cell)) (x : ℤ) :
    (seriesLookup ((sKeys s).map (fun k => (k, some (resCount s k)))) x).getD 0
      = resCount s x := by
  rw [seriesLookup_map_keys]
  by_cases hx : x ∈ sKeys s
  · simp [hx]
  · simp only [hx, if_false, Option.getD_none]
    exact (resCount_zero_of_not_mem s x (fun hm => hx (by
      unfold sKeys; rw [List.mem_dedup]; exact hm))).symm

theorem lookup_type_fill (s : List (ℤ × Cell)) (v : ℤ) (x : ℤ) :
    (seriesLookup ((sKeys s).map (fun k =>
        (k, if v ∈ dummyVals s then some (typeCount s k v) else none))) x).getD 0
      = typeCount s x v := by
  rw [seriesLookup_map_keys]
  by_cases hx : x ∈ sKeys s
  · by_cases hv : v ∈ dummyVals s
    · simp [hx, hv]
    · simp only [hx, if_true, hv, if_false, Option.getD_none]
      exact (typeCount_zero_of_not_val s x v hv).symm
  · simp only [hx, if_false, Option.getD_none]
    exact (typeCount_zero_of_not_mem s x (fun hm => hx (by
      unfold sKeys; rw [List.mem_dedup]; exact hm)) v).symm

/-- Closed form of the whole run on the success path: when the reservation
    frame has its reservation_type column, at least one of the three fixed
    categories occurs in it, the vehicle frame is well-formed and carries the
    two price columns, clean_data returns the cleanOutput frame and leaves
    the (mutated) vehicle frame equal to it. -/
theorem clean_data_run_eq (R V : DF) (s : List (ℤ × Cell))
    (hs : DF.getCol R (Col.named "reservation_type") = Except.ok s)
    (hsome : (1:ℤ) ∈ dummyVals s ∨ (2:ℤ) ∈ dummyVals s ∨ (3:ℤ) ∈ dummyVals s)
    (hV : VehicleSchemaOK V)
    (hap : Col.named "actual_price" ∈ V.cols)
    (hrp : Col.named "recommended_price" ∈ V.cols) :
    clean_data_run R V = (Except.ok (cleanOutput V s), R, cleanOutput V s) := by
  obtain ⟨hlen, hB1, hB2, hB3, hB4, hB5⟩ := hV
  have hguard : Col.resType 1 ∈ (dummyCols s ++ [Col.named "reservation"]) ∨
      Col.resType 2 ∈ (dummyCols s ++ [Col.named "reservation"]) ∨
      Col.resType 3 ∈ (dummyCols s ++ [Col.named "reservation"]) := by
    rcases hsome with h | h | h
    · exact Or.inl (List.mem_append_left _ ((resType_mem_dummyCols _ s).mpr h))
    · exact Or.inr (Or.inl (List.mem_append_left _ ((resType_mem_dummyCols _ s).mpr h)))
    · exact Or.inr (Or.inr (List.mem_append_left _ ((resType_mem_dummyCols _ s).mpr h)))
  have hf2 : Col.resType 1 ∉ V.cols ++ [Col.named "total_reservations"] := by
    simp [List.mem_append, hB2]
  have hf3 : Col.resType 2 ∉ (V.cols ++ [Col.named "total_reservations"]) ++ [Col.resType 1] := by
    simp [List.mem_append, hB3]
  have hf4 : Col.resType 3 ∉
      ((V.cols ++ [Col.named "total_reservations"]) ++ [Col.resType 1]) ++ [Col.resType 2] := by
    simp [List.mem_append, hB4]
  have hfPd : Col.named "price_difference" ∉
      (((V.cols ++ [Col.named "total_reservations"]) ++ [Col.resType 1]) ++ [Col.resType 2])
        ++ [Col.resType 3] := by
    simp [List.mem_append, hB5]
  obtain ⟨ia, hia⟩ := idxOf_some_of_mem _ _ hap
  obtain ⟨ir, hir⟩ := idxOf_some_of_mem _ _ hrp
  have m1a : Col.named "actual_price" ∈ V.cols ++ [Col.named "total_reservations"] :=
    List.mem_append_left _ hap
  have m2a : Col.named "actual_price" ∈
      (V.cols ++ [Col.named "total_reservations"]) ++ [Col.resType 1] :=
    List.mem_append_left _ m1a
  have m3a : Col.named "actual_price" ∈
      ((V.cols ++ [Col.named "total_reservations"]) ++ [Col.resType 1]) ++ [Col.resType 2] :=
    List.mem_append_left _ m2a
  have m1r : Col.named "recommended_price" ∈ V.cols ++ [Col.named "total_reservations"] :=
    List.mem_append_left _ hrp
  have m2r : Col.named "recommended_price" ∈
      (V.cols ++ [Col.named "total_reservations"]) ++ [Col.resType 1] :=
    List.mem_append_left _ m1r
  have m3r : Col.named "recommended_price" ∈
      ((V.cols ++ [Col.named "total_reservations"]) ++ [Col.resType 1]) ++ [Col.resType 2] :=
    List.mem_append_left _ m2r
  have hiaBig : idxOf (Col.named "actual_price")
      ((((V.cols ++ [Col.named "total_reservations"]) ++ [Col.resType 1]) ++ [Col.resType 2])
        ++ [Col.resType 3]) = some ia := by
    rw [idxOf_append_left _ _ _ m3a, idxOf_append_left _ _ _ m2a,
      idxOf_append_left _ _ _ m1a, idxOf_append_left _ _ _ hap]
    exact hia
  have hirBig : idxOf (Col.named "recommended_price")
      ((((V.cols ++ [Col.named "total_reservations"]) ++ [Col.resType 1]) ++ [Col.resType 2])
        ++ [Col.resType 3]) = some ir := by
    rw [idxOf_append_left _ _ _ m3r, idxOf_append_left _ _ _ m2r,
      idxOf_append_left _ _ _ m1r, idxOf_append_left _ _ _ hrp]
    exact hir
  simp only [clean_data_run, hs, res1_eq, res_by_eq, getCol_res_by_reservation,
    getColD_res_by_resType, if_pos hguard]
  rw [setColAligned_fresh V _ _ hB1]
  rw [setColAligned_fresh _ (Col.resType 1) _ hf2]
  rw [setColAligned_fresh _ (Col.resType 2) _ hf3]
  rw [setColAligned_fresh _ (Col.resType 3) _ hf4]
  simp only [DF.fillna, List.map_map, Function.comp]
  simp only [DF.getCol, hiaBig, hirBig]
  rw [zipWith_map_same]
  rw [setColValues_fresh _ _ _ hfPd]
  dsimp only
  simp only [List.map_map]
  rw [List.zip_map']
  simp only [List.map_map, Function.comp]
  simp only [Prod.mk.injEq, Except.ok.injEq]
  refine ⟨?_, by trivial, ?_⟩
  all_goals
    unfold cleanOutput
    rw [DF.mk.injEq]
    refine ⟨by simp [List.append_assoc], ?_⟩
    refine List.map_congr_left (fun r hr => ?_)
    have hw : r.2.length = V.cols.length := hlen r hr
    have hialt : ia < (List.map (fun c => some (Option.getD c 0)) r.2).length := by
      rw [List.length_map, hw]
      exact idxOf_lt_length _ _ _ hia
    have hirlt : ir < (List.map (fun c => some (Option.getD c 0)) r.2).length := by
      rw [List.length_map, hw]
      exact idxOf_lt_length _ _ _ hir
    simp only [Function.comp_apply, List.map_append, List.map_cons, List.map_nil,
      List.append_assoc, List.singleton_append]
    rw [List.getD_append _ _ _ _ hialt, List.getD_append _ _ _ _ hirlt]
    rw [getD_map_fill r.2 ia (by rw [hw]; exact idxOf_lt_length _ _ _ hia),
      getD_map_fill r.2 ir (by rw [hw]; exact idxOf_lt_length _ _ _ hir)]
    rw [lookup_total_fill, lookup_type_fill, lookup_type_fill, lookup_type_fill]
    rw [← rowVal_eq V.cols r.2 _ ia hia, ← rowVal_eq V.cols r.2 _ ir hir]
    simp [subCell]

/-! ### cellAt extraction lemmas for the closed-form output -/

theorem cellAt_elim (df : DF) (k : ℤ) (c : Col) (x : Cell)
    (h : df.cellAt k c = some x) :
    ∃ i r, idxOf c df.cols = some i ∧
      df.rows.find? (fun q => q.1 = k) = some r ∧ r.2.getD i none = x := by
  unfold DF.cellAt at h
  split at h
  next i r hi hf => exact ⟨i, r, hi, hf, Option.some.inj h⟩
  next => simp at h

theorem cleanOutput_find (V : DF) (s : List (ℤ × Cell)) (k : ℤ) (r : ℤ × List Cell)
    (hfind : V.rows.find? (fun x => x.1 = k) = some r) :
    (cleanOutput V s).rows.find? (fun x => x.1 = k)
      = some (r.1, r.2.map (fun c => some (c.getD 0))
          ++ [some (resCount s r.1), some (typeCount s r.1 1), some (typeCount s r.1 2),
              some (typeCount s r.1 3),
              some (rowVal V.cols r.2 (Col.named "actual_price") -
                    rowVal V.cols r.2 (Col.named "recommended_price"))]) := by
  unfold cleanOutput
  rw [find_eq_fst_map (fun r : ℤ × List Cell => r.2.map (fun c => some (c.getD (0:ℤ)))
      ++ [some (resCount s r.1), some (typeCount s r.1 1), some (typeCount s r.1 2),
          some (typeCount s r.1 3),
          some (rowVal V.cols r.2 (Col.named "actual_price") -
                rowVal V.cols r.2 (Col.named "recommended_price"))]) V.rows k]
  rw [hfind]
  rfl

theorem cellAt_cleanOutput_offset (V : DF) (s : List (ℤ × Cell)) (k : ℤ)
    (r : ℤ × List Cell) (c : Col) (j : ℕ)
    (hc : idxOf c [Col.named "total_reservations", Col.resType 1, Col.resType 2,
        Col.resType 3, Col.named "price_difference"] = some j)
    (hB : c ∉ V.cols)
    (hw : r.2.length = V.cols.length)
    (hfind : V.rows.find? (fun x => x.1 = k) = some r) :
    (cleanOutput V s).cellAt k c
      = some ([some (resCount s r.1), some (typeCount s r.1 1), some (typeCount s r.1 2),
               some (typeCount s r.1 3),
               some (rowVal V.cols r.2 (Col.named "actual_price") -
                     rowVal V.cols r.2 (Col.named "recommended_price"))].getD j none) := by
  have hidx : idxOf c (cleanOutput V s).cols = some (V.cols.length + j) := by
    unfold cleanOutput
    rw [idxOf_append_right _ _ _ hB, hc]
    rfl
  simp only [DF.cellAt, hidx, cleanOutput_find V s k r hfind]
  congr 1
  have hl : (r.2.map (fun c => some (Option.getD c 0))).length = V.cols.length := by
    simp [hw]
  rw [← hl]
  exact getD_append_len_add _ _ _ j

theorem cellAt_cleanOutput_old (V : DF) (s : List (ℤ × Cell)) (k : ℤ)
    (r : ℤ × List Cell) (c : Col) (i : ℕ)
    (hc : idxOf c V.cols = some i)
    (hw : r.2.length = V.cols.length)
    (hfind : V.rows.find? (fun x => x.1 = k) = some r) :
    (cleanOutput V s).cellAt k c = some (some ((r.2.getD i none).getD 0)) := by
  have hmem : c ∈ V.cols := by
    by_contra hmem
    rw [(idxOf_eq_none_iff c V.cols).mpr hmem] at hc
    cases hc
  have hidx : idxOf c (cleanOutput V s).cols = some i := by
    unfold cleanOutput
    rw [idxOf_append_left _ _ _ hmem]
    exact hc
  have hilt : i < (r.2.map (fun c => some (Option.getD c 0))).length := by
    rw [List.length_map, hw]
    exact idxOf_lt_length _ _ _ hc
  simp only [DF.cellAt, hidx, cleanOutput_find V s k r hfind]
  congr 1
  rw [List.getD_append _ _ _ _ hilt]
  exact getD_map_fill r.2 i (by rw [hw]; exact idxOf_lt_length _ _ _ hc)

/-! ### Row-skeleton preservation (for left-join completeness) -/

theorem map_fst_fst_zip {α β γ : Type _} (l₁ : List (α × β)) (l₂ : List γ)
    (h : l₁.length ≤ l₂.length) :
    (l₁.zip l₂).map (fun rv => rv.1.1) = l₁.map Prod.fst := by
  induction l₁ generalizing l₂ with
  | nil => simp
  | cons a as ih =>
    cases l₂ with
    | nil => simp at h
    | cons b bs => simp [ih bs (by simpa using h)]

theorem map_fst_setColAligned (df : DF) (c : Col) (s : List (ℤ × Cell)) :
    (df.setColAligned c s).rows.map Prod.fst = df.rows.map Prod.fst := by
  unfold DF.setColAligned
  cases idxOf c df.cols <;> exact map_fst_map _ _

theorem map_fst_fillna (df : DF) (q : ℤ) :
    (df.fillna q).rows.map Prod.fst = df.rows.map Prod.fst :=
  map_fst_map _ _

theorem map_fst_setColValues (df : DF) (c : Col) (vals : List Cell)
    (h : df.rows.length ≤ vals.length) :
    (df.setColValues c vals).rows.map Prod.fst = df.rows.map Prod.fst := by
  unfold DF.setColValues
  cases idxOf c df.cols <;>
    · show ((df.rows.zip vals).map _).map Prod.fst = _
      rw [List.map_map]
      exact map_fst_fst_zip df.rows vals h

theorem getCol_ok_length (df : DF) (c : Col) (l : List (ℤ × Cell))
    (h : df.getCol c = Except.ok l) : l.length = df.rows.length := by
  unfold DF.getCol at h
  split at h
  · cases h
  · cases h
    simp

theorem getCol_ok_map_fst (df : DF) (c : Col) (l : List (ℤ × Cell))
    (h : df.getCol c = Except.ok l) : l.map Prod.fst = df.rows.map Prod.fst := by
  unfold DF.getCol at h
  split at h
  · cases h
  · cases h
    exact map_fst_map _ _

/-! ### Counting lemmas for the reservation series -/

theorem resCount_eq_input (R : DF) (s : List (ℤ × Cell))
    (hs : R.getCol (Col.named "reservation_type") = Except.ok s) (k : ℤ) :
    resCount s k = ((R.rows.filter (fun r => r.1 = k)).length : ℤ) := by
  unfold DF.getCol at hs
  split at hs
  · cases hs
  · cases hs
    unfold resCount
    rw [filter_eq_fst_map, List.length_map]

theorem filter_of_input_nil (R : DF) (s : List (ℤ × Cell))
    (hs : R.getCol (Col.named "reservation_type") = Except.ok s) (k : ℤ)
    (h0 : R.rows.filter (fun r => r.1 = k) = []) :
    s.filter (fun r => r.1 = k) = [] := by
  unfold DF.getCol at hs
  split at hs
  · cases hs
  · cases hs
    rw [filter_eq_fst_map, h0]
    rfl

theorem typeCount_zero_of_filter_nil (s : List (ℤ × Cell)) (k : ℤ) (v : ℤ)
    (h : s.filter (fun r => r.1 = k) = []) : typeCount s k v = 0 := by
  unfold typeCount
  rw [h]
  rfl

theorem count_partition (s : List (ℤ × Cell)) (k : ℤ) :
    resCount s k = typeCount s k 1 + typeCount s k 2 + typeCount s k 3 + outOfSetCount s k := by
  unfold resCount typeCount outOfSetCount
  have hrw : (fun (r : ℤ × Cell) => decide (r.2 ≠ some 1 ∧ r.2 ≠ some 2 ∧ r.2 ≠ some 3))
      = (fun (r : ℤ × Cell) =>
          (!decide (r.2 = some 1) && (!decide (r.2 = some 2) && !decide (r.2 = some 3)))) := by
    funext r
    by_cases h1 : r.2 = some 1 <;> by_cases h2 : r.2 = some 2 <;> by_cases h3 : r.2 = some 3 <;>
      simp [h1, h2, h3]
  rw [hrw]
  generalize s.filter (fun r => r.1 = k) = l
  induction l with
  | nil => simp
  | cons a as ih =>
    by_cases h1 : a.2 = some 1
    · simp only [List.filter_cons, h1, List.length_cons]
      norm_num
      push_cast
      omega
    · by_cases h2 : a.2 = some 2
      · simp only [List.filter_cons, h1, h2, List.length_cons]
        norm_num [h1]
        push_cast
        omega
      · by_cases h3 : a.2 = some 3
        · simp only [List.filter_cons, h1, h2, h3, List.length_cons]
          norm_num [h1, h2]
          push_cast
          omega
        · simp only [List.filter_cons, h1, h2, h3, List.length_cons]
          norm_num [h1, h2, h3]
          push_cast
          omega

theorem filter_key_restrict (s : List (ℤ × Cell)) (ids : List ℤ) (k : ℤ) (hk : k ∈ ids) :
    (s.filter (fun r => r.1 ∈ ids)).filter (fun r => r.1 = k)
      = s.filter (fun r => r.1 = k) := by
  rw [List.filter_filter]
  refine List.filter_congr (fun a _ => ?_)
  by_cases h : a.1 = k
  · simp [h, hk]
  · simp [h]

theorem cleanOutput_congr (V : DF) (s s' : List (ℤ × Cell))
    (h1 : ∀ k ∈ V.rows.map Prod.fst, resCount s k = resCount s' k)
    (h2 : ∀ k ∈ V.rows.map Prod.fst, ∀ v, typeCount s k v = typeCount s' k v) :
    cleanOutput V s = cleanOutput V s' := by
  unfold cleanOutput
  rw [DF.mk.injEq]
  refine ⟨rfl, List.map_congr_left (fun r hr => ?_)⟩
  have hk : r.1 ∈ V.rows.map Prod.fst := List.mem_map.mpr ⟨r, hr, rfl⟩
  rw [h1 r.1 hk, h2 r.1 hk 1, h2 r.1 hk 2, h2 r.1 hk 3]

theorem getCol_ok_mem (df : DF) (c : Col) (l : List (ℤ × Cell))
    (h : df.getCol c = Except.ok l) : c ∈ df.cols := by
  unfold DF.getCol at h
  split at h
  next hi => cases h
  next i hi =>
    by_contra hm
    rw [(idxOf_eq_none_iff c df.cols).mpr hm] at hi
    cases hi

theorem getCol_error_of_not_mem (df : DF) (c : Col) (h : c ∉ df.cols) :
    df.getCol c = Except.error (PdError.keyError c) := by
  unfold DF.getCol
  rw [(idxOf_eq_none_iff c df.cols).mpr h]

theorem cols_setColAligned_fresh (df : DF) (c : Col) (s : List (ℤ × Cell))
    (h : c ∉ df.cols) : (df.setColAligned c s).cols = df.cols ++ [c] := by
  unfold DF.setColAligned
  rw [(idxOf_eq_none_iff c df.cols).mpr h]

theorem cols_fillna (df : DF) (q : ℤ) : (df.fillna q).cols = df.cols := rfl

theorem map_fst_setColValues_zip (df : DF) (c : Col) (ap rp : List (ℤ × Cell))
    (h1 : ap.length = df.rows.length) (h2 : rp.length = df.rows.length) :
    (df.setColValues c (List.zipWith (fun a b => subCell a.2 b.2) ap rp)).rows.map Prod.fst
      = df.rows.map Prod.fst := by
  apply map_fst_setColValues
  rw [List.length_zipWith, h1, h2]
  simp

/-- C2: for every vehicle table and reservation table, whenever clean_data
    returns a frame, that frame has exactly the rows of the vehicle table:
    same index labels in the same order (hence the same row count, and each
    vehicle appears exactly once when its id is unique in the input). -/
theorem C2_left_join_completeness (R V out : DF)
    (h : clean_data R V = Except.ok out) :
    out.rows.map Prod.fst = V.rows.map Prod.fst ∧
      out.rows.length = V.rows.length ∧
      ((V.rows.map Prod.fst).Nodup → (out.rows.map Prod.fst).Nodup) := by
  unfold clean_data clean_data_run at h
  have hskel : out.rows.map Prod.fst = V.rows.map Prod.fst := by
    split at h
    next e he => simp at h
    next s hs =>
      dsimp only at h
      split at h
      next e he => simp at h
      next ts hts =>
        split at h
        · split at h
          next e he => simp at h
          next ap hA =>
            split at h
            next e he => simp at h
            next rp hB =>
              simp only [Except.ok.injEq] at h
              rw [← h]
              rw [map_fst_setColValues_zip _ _ _ _ (getCol_ok_length _ _ _ hA)
                (getCol_ok_length _ _ _ hB), map_fst_fillna, map_fst_setColAligned,
                map_fst_setColAligned, map_fst_setColAligned, map_fst_setColAligned]
        · simp at h
  refine ⟨hskel, ?_, fun hn => ?_⟩
  · have := congrArg List.length hskel
    simpa using this
  · rw [hskel]
    exact hn

/-- C6: if a required input column (reservation_type on the reservation
    table, actual_price or recommended_price on the vehicle table) is absent,
    clean_data fails with an error (the KeyError that plays the role of the
    contract's SchemaError) instead of returning a frame. -/
theorem C6_missing_column_fails (R V : DF) (hV : VehicleSchemaOK V)
    (h : Col.named "reservation_type" ∉ R.cols ∨
      Col.named "actual_price" ∉ V.cols ∨ Col.named "recommended_price" ∉ V.cols) :
    ∃ e, clean_data R V = Except.error e := by
  obtain ⟨hlen, hB1, hB2, hB3, hB4, hB5⟩ := hV
  unfold clean_data clean_data_run
  split
  next e he => exact ⟨e, rfl⟩
  next s hs =>
    dsimp only
    split
    next e he => exact ⟨e, rfl⟩
    next ts hts =>
      split
      · split
        next e he => exact ⟨e, rfl⟩
        next ap hA =>
          split
          next e he => exact ⟨e, rfl⟩
          next rp hB =>
            exfalso
            set G := ((get_dummies s).setConstCol (Col.named "reservation") 1).groupbySum with hG
            have c1 := cols_setColAligned_fresh V (Col.named "total_reservations") ts hB1
            have f2 : Col.resType 1 ∉
                (V.setColAligned (Col.named "total_reservations") ts).cols := by
              rw [c1]
              simp [hB2]
            have c2 := cols_setColAligned_fresh _ (Col.resType 1) (G.getColD (Col.resType 1)) f2
            have f3 : Col.resType 2 ∉
                ((V.setColAligned (Col.named "total_reservations") ts).setColAligned
                  (Col.resType 1) (G.getColD (Col.resType 1))).cols := by
              rw [c2, c1]
              simp [hB3]
            have c3 := cols_setColAligned_fresh _ (Col.resType 2) (G.getColD (Col.resType 2)) f3
            have f4 : Col.resType 3 ∉
                (((V.setColAligned (Col.named "total_reservations") ts).setColAligned
                  (Col.resType 1) (G.getColD (Col.resType 1))).setColAligned
                  (Col.resType 2) (G.getColD (Col.resType 2))).cols := by
              rw [c3, c2, c1]
              simp [hB4]
            have c4 := cols_setColAligned_fresh _ (Col.resType 3) (G.getColD (Col.resType 3)) f4
            rcases h with h | h | h
            · exact h (getCol_ok_mem _ _ _ hs)
            · have hmem := getCol_ok_mem _ _ _ hA
              rw [cols_fillna, c4, c3, c2, c1] at hmem
              simp at hmem
              exact h hmem
            · have hmem := getCol_ok_mem _ _ _ hB
              rw [cols_fillna, c4, c3, c2, c1] at hmem
              simp at hmem
              exact h hmem
      · exact ⟨PdError.keyErrorList res_types, rfl⟩

/-- C3: on the success path, the total_reservations cell of a vehicle equals
    the number of reservation rows referencing it, which decomposes as the
    sum of the three per-category counts plus the count of rows whose type
    lies outside the fixed category set. -/
theorem C3_total_is_count_plus_out_of_set (R V : DF) (s : List (ℤ × Cell)) (k : ℤ)
    (hs : DF.getCol R (Col.named "reservation_type") = Except.ok s)
    (hsome : (1:ℤ) ∈ dummyVals s ∨ (2:ℤ) ∈ dummyVals s ∨ (3:ℤ) ∈ dummyVals s)
    (hV : VehicleSchemaOK V)
    (hap : Col.named "actual_price" ∈ V.cols)
    (hrp : Col.named "recommended_price" ∈ V.cols)
    (hk : k ∈ V.rows.map Prod.fst) :
    ∃ out, clean_data R V = Except.ok out ∧
      out.cellAt k (Col.named "total_reservations") = some (some (resCount s k)) ∧
      resCount s k = ((R.rows.filter (fun r => r.1 = k)).length : ℤ) ∧
      out.cellAt k (Col.resType 1) = some (some (typeCount s k 1)) ∧
      out.cellAt k (Col.resType 2) = some (some (typeCount s k 2)) ∧
      out.cellAt k (Col.resType 3) = some (some (typeCount s k 3)) ∧
      resCount s k = typeCount s k 1 + typeCount s k 2 + typeCount s k 3 + outOfSetCount s k := by
  obtain ⟨r, hfind, hrk⟩ := find?_fst_of_mem V.rows k hk
  have hw : r.2.length = V.cols.length := hV.1 r (List.mem_of_find?_eq_some hfind)
  refine ⟨cleanOutput V s,
    by unfold clean_data; rw [clean_data_run_eq R V s hs hsome hV hap hrp],
    ?_, resCount_eq_input R s hs k, ?_, ?_, ?_, count_partition s k⟩
  · rw [cellAt_cleanOutput_offset V s k r (Col.named "total_reservations") 0
      (by decide) hV.2.1 hw hfind]
    simp [hrk]
  · rw [cellAt_cleanOutput_offset V s k r (Col.resType 1) 1
      (by decide) hV.2.2.1 hw hfind]
    simp [hrk]
  · rw [cellAt_cleanOutput_offset V s k r (Col.resType 2) 2
      (by decide) hV.2.2.2.1 hw hfind]
    simp [hrk]
  · rw [cellAt_cleanOutput_offset V s k r (Col.resType 3) 3
      (by decide) hV.2.2.2.2.1 hw hfind]
    simp [hrk]

/-- C4: on the success path, the price_difference cell of a vehicle whose two
    price cells are present equals exactly their difference, for any
    reservation table satisfying the success conditions (the value does not
    depend on the reservation data). -/
theorem C4_price_difference_exact (R V : DF) (s : List (ℤ × Cell)) (k : ℤ) (a b : ℤ)
    (hs : DF.getCol R (Col.named "reservation_type") = Except.ok s)
    (hsome : (1:ℤ) ∈ dummyVals s ∨ (2:ℤ) ∈ dummyVals s ∨ (3:ℤ) ∈ dummyVals s)
    (hV : VehicleSchemaOK V)
    (hap : Col.named "actual_price" ∈ V.cols)
    (hrp : Col.named "recommended_price" ∈ V.cols)
    (ha : V.cellAt k (Col.named "actual_price") = some (some a))
    (hb : V.cellAt k (Col.named "recommended_price") = some (some b)) :
    ∃ out, clean_data R V = Except.ok out ∧
      out.cellAt k (Col.named "price_difference") = some (some (a - b)) := by
  obtain ⟨ia, r, hia, hfind, hcellA⟩ := cellAt_elim V k _ _ ha
  obtain ⟨ir, r2, hir, hfind2, hcellB⟩ := cellAt_elim V k _ _ hb
  have hrr : r2 = r := by
    rw [hfind] at hfind2
    exact (Option.some.inj hfind2).symm
  subst hrr
  have hw : r2.2.length = V.cols.length := hV.1 r2 (List.mem_of_find?_eq_some hfind)
  have hva : rowVal V.cols r2.2 (Col.named "actual_price") = a := by
    rw [rowVal_eq _ _ _ _ hia, hcellA]
    rfl
  have hvb : rowVal V.cols r2.2 (Col.named "recommended_price") = b := by
    rw [rowVal_eq _ _ _ _ hir, hcellB]
    rfl
  refine ⟨cleanOutput V s,
    by unfold clean_data; rw [clean_data_run_eq R V s hs hsome hV hap hrp], ?_⟩
  rw [cellAt_cleanOutput_offset V s k r2 (Col.named "price_difference") 4
    (by decide) hV.2.2.2.2.2 hw hfind]
  simp [hva, hvb]

/-- C5: on the success path, a vehicle with no matching reservation rows gets
    literal zeros (not missing values) in all four count cells. -/
theorem C5_zero_counts_for_unreserved (R V : DF) (s : List (ℤ × Cell)) (k : ℤ)
    (hs : DF.getCol R (Col.named "reservation_type") = Except.ok s)
    (hsome : (1:ℤ) ∈ dummyVals s ∨ (2:ℤ) ∈ dummyVals s ∨ (3:ℤ) ∈ dummyVals s)
    (hV : VehicleSchemaOK V)
    (hap : Col.named "actual_price" ∈ V.cols)
    (hrp : Col.named "recommended_price" ∈ V.cols)
    (hk : k ∈ V.rows.map Prod.fst)
    (h0 : R.rows.filter (fun r => r.1 = k) = []) :
    ∃ out, clean_data R V = Except.ok out ∧
      out.cellAt k (Col.named "total_reservations") = some (some 0) ∧
      out.cellAt k (Col.resType 1) = some (some 0) ∧
      out.cellAt k (Col.resType 2) = some (some 0) ∧
      out.cellAt k (Col.resType 3) = some (some 0) := by
  have hsnil : s.filter (fun r => r.1 = k) = [] := filter_of_input_nil R s hs k h0
  have hres : resCount s k = 0 := by
    unfold resCount
    rw [hsnil]
    rfl
  have ht : ∀ v, typeCount s k v = 0 := fun v => typeCount_zero_of_filter_nil s k v hsnil
  obtain ⟨r, hfind, hrk⟩ := find?_fst_of_mem V.rows k hk
  have hw : r.2.length = V.cols.length := hV.1 r (List.mem_of_find?_eq_some hfind)
  refine ⟨cleanOutput V s,
    by unfold clean_data; rw [clean_data_run_eq R V s hs hsome hV hap hrp],
    ?_, ?_, ?_, ?_⟩
  · rw [cellAt_cleanOutput_offset V s k r (Col.named "total_reservations") 0
      (by decide) hV.2.1 hw hfind]
    simp [hrk, hres]
  · rw [cellAt_cleanOutput_offset V s k r (Col.resType 1) 1 (by decide) hV.2.2.1 hw hfind]
    simp [hrk, ht 1]
  · rw [cellAt_cleanOutput_offset V s k r (Col.resType 2) 2 (by decide) hV.2.2.2.1 hw hfind]
    simp [hrk, ht 2]
  · rw [cellAt_cleanOutput_offset V s k r (Col.resType 3) 3 (by decide) hV.2.2.2.2.1 hw hfind]
    simp [hrk, ht 3]

/-- C7: reservations whose vehicle id is not in the vehicle table contribute
    nothing: two reservation tables whose series agree once restricted to the
    vehicle ids produce identical outputs, and the run succeeds (orphans
    cause no error). -/
theorem C7_orphans_excluded (R R' V : DF) (s s' : List (ℤ × Cell))
    (hs : DF.getCol R (Col.named "reservation_type") = Except.ok s)
    (hs' : DF.getCol R' (Col.named "reservation_type") = Except.ok s')
    (hsome : (1:ℤ) ∈ dummyVals s ∨ (2:ℤ) ∈ dummyVals s ∨ (3:ℤ) ∈ dummyVals s)
    (hsome' : (1:ℤ) ∈ dummyVals s' ∨ (2:ℤ) ∈ dummyVals s' ∨ (3:ℤ) ∈ dummyVals s')
    (hV : VehicleSchemaOK V)
    (hap : Col.named "actual_price" ∈ V.cols)
    (hrp : Col.named "recommended_price" ∈ V.cols)
    (hrestrict : s.filter (fun r => r.1 ∈ V.rows.map Prod.fst)
        = s'.filter (fun r => r.1 ∈ V.rows.map Prod.fst)) :
    clean_data R V = clean_data R' V ∧ ∃ out, clean_data R V = Except.ok out := by
  have hco : cleanOutput V s = cleanOutput V s' := by
    refine cleanOutput_congr V s s' (fun k hk => ?_) (fun k hk v => ?_)
    · unfold resCount
      rw [← filter_key_restrict s _ k hk, ← filter_key_restrict s' _ k hk, hrestrict]
    · unfold typeCount
      rw [← filter_key_restrict s _ k hk, ← filter_key_restrict s' _ k hk, hrestrict]
  constructor
  · unfold clean_data
    rw [clean_data_run_eq R V s hs hsome hV hap hrp,
      clean_data_run_eq R' V s' hs' hsome' hV hap hrp, hco]
  · exact ⟨cleanOutput V s,
      by unfold clean_data; rw [clean_data_run_eq R V s hs hsome hV hap hrp]⟩

/-- C10: the zero-fill is frame-wide: any NaN cell of any vehicle column is
    replaced by 0 in the output, and this happens before price_difference is
    computed, so a vehicle with a NaN actual_price and recommended_price b
    gets price_difference 0 - b. -/
theorem C10_fillna_hits_vehicle_columns (R V : DF) (s : List (ℤ × Cell)) (k : ℤ) (b : ℤ)
    (hs : DF.getCol R (Col.named "reservation_type") = Except.ok s)
    (hsome : (1:ℤ) ∈ dummyVals s ∨ (2:ℤ) ∈ dummyVals s ∨ (3:ℤ) ∈ dummyVals s)
    (hV : VehicleSchemaOK V)
    (hap : Col.named "actual_price" ∈ V.cols)
    (hrp : Col.named "recommended_price" ∈ V.cols)
    (ha : V.cellAt k (Col.named "actual_price") = some none)
    (hb : V.cellAt k (Col.named "recommended_price") = some (some b)) :
    ∃ out, clean_data R V = Except.ok out ∧
      out.cellAt k (Col.named "actual_price") = some (some 0) ∧
      out.cellAt k (Col.named "price_difference") = some (some (0 - b)) ∧
      (∀ c, V.cellAt k c = some none → out.cellAt k c = some (some 0)) := by
  obtain ⟨ia, r, hia, hfind, hcellA⟩ := cellAt_elim V k _ _ ha
  obtain ⟨ir, r2, hir, hfind2, hcellB⟩ := cellAt_elim V k _ _ hb
  have hrr : r2 = r := by
    rw [hfind] at hfind2
    exact (Option.some.inj hfind2).symm
  subst hrr
  have hw : r2.2.length = V.cols.length := hV.1 r2 (List.mem_of_find?_eq_some hfind)
  have hva : rowVal V.cols r2.2 (Col.named "actual_price") = 0 := by
    rw [rowVal_eq _ _ _ _ hia, hcellA]
    rfl
  have hvb : rowVal V.cols r2.2 (Col.named "recommended_price") = b := by
    rw [rowVal_eq _ _ _ _ hir, hcellB]
    rfl
  refine ⟨cleanOutput V s,
    by unfold clean_data; rw [clean_data_run_eq R V s hs hsome hV hap hrp],
    ?_, ?_, fun c hc => ?_⟩
  · rw [cellAt_cleanOutput_old V s k r2 _ ia hia hw hfind, hcellA]
    rfl
  · rw [cellAt_cleanOutput_offset V s k r2 (Col.named "price_difference") 4
      (by decide) hV.2.2.2.2.2 hw hfind]
    simp [hva, hvb]
  · obtain ⟨i, rc, hi, hfindc, hcellc⟩ := cellAt_elim V k _ _ hc
    have hrc : rc = r2 := by
      rw [hfind] at hfindc
      exact (Option.some.inj hfindc).symm
    subst hrc
    rw [cellAt_cleanOutput_old V s k rc c i hi hw hfind, hcellc]
    rfl

/-- C1: on the spec's worked example clean_data returns exactly the expected
    frame: vehicle 1 with counts 3/2/1/0 and price_difference 20, vehicle 2
    with all-zero counts and price_difference -10. -/
theorem C1_worked_example :
    clean_data reservationExample vehicleExample = Except.ok cleanedExample := by
  decide

/-- C8 (amended): clean_data leaves the reservation frame untouched, and on
    success the returned frame is the post-call state of the vehicle frame
    (the output aliases the mutated input). -/
theorem C8_amended_mutation (R V : DF) (res : Except PdError DF) (rafter vafter : DF)
    (h : clean_data_run R V = (res, rafter, vafter)) :
    rafter = R ∧ ∀ out, res = Except.ok out → vafter = out := by
  unfold clean_data_run at h
  split at h
  next e he =>
    rw [Prod.mk.injEq, Prod.mk.injEq] at h
    obtain ⟨h1, h2, h3⟩ := h
    refine ⟨h2.symm, fun out hr => ?_⟩
    rw [← h1] at hr
    simp at hr
  next s hs =>
    dsimp only at h
    split at h
    next e he =>
      rw [Prod.mk.injEq, Prod.mk.injEq] at h
      obtain ⟨h1, h2, h3⟩ := h
      refine ⟨h2.symm, fun out hr => ?_⟩
      rw [← h1] at hr
      simp at hr
    next ts hts =>
      split at h
      · split at h
        next e he =>
          rw [Prod.mk.injEq, Prod.mk.injEq] at h
          obtain ⟨h1, h2, h3⟩ := h
          refine ⟨h2.symm, fun out hr => ?_⟩
          rw [← h1] at hr
          simp at hr
        next ap hA =>
          split at h
          next e he =>
            rw [Prod.mk.injEq, Prod.mk.injEq] at h
            obtain ⟨h1, h2, h3⟩ := h
            refine ⟨h2.symm, fun out hr => ?_⟩
            rw [← h1] at hr
            simp at hr
          next rp hB =>
            rw [Prod.mk.injEq, Prod.mk.injEq] at h
            obtain ⟨h1, h2, h3⟩ := h
            refine ⟨h2.symm, fun out hr => ?_⟩
            rw [← h1] at hr
            rw [← h3]
            injection hr
      · rw [Prod.mk.injEq, Prod.mk.injEq] at h
        obtain ⟨h1, h2, h3⟩ := h
        refine ⟨h2.symm, fun out hr => ?_⟩
        rw [← h1] at hr
        simp at hr

/-- C8 (counterexample): the vehicle frame passed to clean_data is not left
    unchanged: after the call on the worked example it differs from the
    input (the derived columns were inserted in place). -/
theorem C8_counterexample_vehicle_mutated :
    (clean_data_run reservationExample vehicleExample).2.2 ≠ vehicleExample := by
  decide

theorem C8_amended_mutation_witness :
    reservationExample = reservationExample ∧
      ∀ out, (Except.ok cleanedExample : Except PdError DF) = Except.ok out →
        cleanedExample = out :=
  C8_amended_mutation reservationExample vehicleExample (Except.ok cleanedExample)
    reservationExample cleanedExample (by decide)

/-- C9 (counterexample): clean_data succeeds on a reservation table in which
    category 3 never occurs; the absent category simply yields an all-zero
    column, refuting the claim that every category must occur at least once
    for the call to succeed. -/
theorem C9_counterexample_success_without_type3 :
    clean_data reservationNoType3 vehicleSmall = Except.ok
      { cols := [Col.named "actual_price", Col.named "recommended_price",
                 Col.named "total_reservations", Col.resType 1, Col.resType 2,
                 Col.resType 3, Col.named "price_difference"]
        rows := [(1, [some 10, some 4, some 2, some 1, some 1, some 0, some 6])] }
    ∧ (3:ℤ) ∉ dummyVals (reservationNoType3.rows.map (fun r => (r.1, r.2.getD 0 none))) := by
  decide

/-- C9 (amended): the per-type column lookup fails (with the KeyError listing
    the three labels) exactly when none of the three categories occurs in the
    reservation data, e.g. on an empty reservation table; a single absent
    category produces an all-zero column instead of an error. -/
theorem C9_amended_error_only_when_all_absent (R V : DF) (s : List (ℤ × Cell))
    (hs : DF.getCol R (Col.named "reservation_type") = Except.ok s)
    (h1 : (1:ℤ) ∉ dummyVals s) (h2 : (2:ℤ) ∉ dummyVals s) (h3 : (3:ℤ) ∉ dummyVals s) :
    clean_data R V = Except.error (PdError.keyErrorList res_types) := by
  have hcond : ¬(Col.resType 1 ∈ (dummyCols s ++ [Col.named "reservation"]) ∨
      Col.resType 2 ∈ (dummyCols s ++ [Col.named "reservation"]) ∨
      Col.resType 3 ∈ (dummyCols s ++ [Col.named "reservation"])) := by
    simp [resType_mem_dummyCols, h1, h2, h3]
  unfold clean_data clean_data_run
  simp only [hs, res1_eq, res_by_eq, getCol_res_by_reservation, if_neg hcond]

theorem C9_amended_error_witness :
    clean_data reservationEmpty vehicleExample
      = Except.error (PdError.keyErrorList res_types) :=
  C9_amended_error_only_when_all_absent reservationEmpty vehicleExample []
    (by decide) (by decide) (by decide) (by decide)

theorem C2_left_join_completeness_witness :
    cleanedExample.rows.map Prod.fst = vehicleExample.rows.map Prod.fst ∧
      cleanedExample.rows.length = vehicleExample.rows.length ∧
      ((vehicleExample.rows.map Prod.fst).Nodup → (cleanedExample.rows.map Prod.fst).Nodup) :=
  C2_left_join_completeness reservationExample vehicleExample cleanedExample (by decide)

theorem C3_total_is_count_plus_out_of_set_witness :
    ∃ out, clean_data reservationExample vehicleExample = Except.ok out ∧
      out.cellAt 1 (Col.named "total_reservations")
        = some (some (resCount [((1:ℤ), some (1:ℤ)), (1, some 1), (1, some 2)] 1)) ∧
      resCount [((1:ℤ), some (1:ℤ)), (1, some 1), (1, some 2)] 1
        = ((reservationExample.rows.filter (fun r => r.1 = 1)).length : ℤ) ∧
      out.cellAt 1 (Col.resType 1)
        = some (some (typeCount [((1:ℤ), some (1:ℤ)), (1, some 1), (1, some 2)] 1 1)) ∧
      out.cellAt 1 (Col.resType 2)
        = some (some (typeCount [((1:ℤ), some (1:ℤ)), (1, some 1), (1, some 2)] 1 2)) ∧
      out.cellAt 1 (Col.resType 3)
        = some (some (typeCount [((1:ℤ), some (1:ℤ)), (1, some 1), (1, some 2)] 1 3)) ∧
      resCount [((1:ℤ), some (1:ℤ)), (1, some 1), (1, some 2)] 1
        = typeCount [((1:ℤ), some (1:ℤ)), (1, some 1), (1, some 2)] 1 1
          + typeCount [((1:ℤ), some (1:ℤ)), (1, some 1), (1, some 2)] 1 2
          + typeCount [((1:ℤ), some (1:ℤ)), (1, some 1), (1, some 2)] 1 3
          + outOfSetCount [((1:ℤ), some (1:ℤ)), (1, some 1), (1, some 2)] 1 :=
  C3_total_is_count_plus_out_of_set reservationExample vehicleExample
    [((1:ℤ), some (1:ℤ)), (1, some 1), (1, some 2)] 1
    (by decide) (by decide) (by decide) (by decide) (by decide) (by decide)

theorem C4_price_difference_exact_witness :
    ∃ out, clean_data reservationExample vehicleExample = Except.ok out ∧
      out.cellAt 1 (Col.named "price_difference") = some (some (100 - 80)) :=
  C4_price_difference_exact reservationExample vehicleExample
    [((1:ℤ), some (1:ℤ)), (1, some 1), (1, some 2)] 1 100 80
    (by decide) (by decide) (by decide) (by decide) (by decide) (by decide) (by decide)

theorem C5_zero_counts_for_unreserved_witness :
    ∃ out, clean_data reservationExample vehicleExample = Except.ok out ∧
      out.cellAt 2 (Col.named "total_reservations") = some (some 0) ∧
      out.cellAt 2 (Col.resType 1) = some (some 0) ∧
      out.cellAt 2 (Col.resType 2) = some (some 0) ∧
      out.cellAt 2 (Col.resType 3) = some (some 0) :=
  C5_zero_counts_for_unreserved reservationExample vehicleExample
    [((1:ℤ), some (1:ℤ)), (1, some 1), (1, some 2)] 2
    (by decide) (by decide) (by decide) (by decide) (by decide) (by decide) (by decide)

theorem C6_missing_column_fails_witness :
    ∃ e, clean_data reservationExample vehicleNoActual = Except.error e :=
  C6_missing_column_fails reservationExample vehicleNoActual (by decide)
    (Or.inr (Or.inl (by decide)))

theorem C7_orphans_excluded_witness :
    clean_data reservationWithOrphan vehicleSmall
        = clean_data reservationNoOrphan vehicleSmall ∧
      ∃ out, clean_data reservationWithOrphan vehicleSmall = Except.ok out :=
  C7_orphans_excluded reservationWithOrphan reservationNoOrphan vehicleSmall
    [((1:ℤ), some (1:ℤ)), (9, some 2)] [((1:ℤ), some (1:ℤ))]
    (by decide) (by decide) (by decide) (by decide) (by decide) (by decide) (by decide)
    (by decide)

theorem C10_fillna_hits_vehicle_columns_witness :
    ∃ out, clean_data reservationOne vehicleNaNPrice = Except.ok out ∧
      out.cellAt 1 (Col.named "actual_price") = some (some 0) ∧
      out.cellAt 1 (Col.named "price_difference") = some (some (0 - 7)) ∧
      (∀ c, vehicleNaNPrice.cellAt 1 c = some none → out.cellAt 1 c = some (some 0)) :=
  C10_fillna_hits_vehicle_columns reservationOne vehicleNaNPrice
    [((1:ℤ), some (1:ℤ))] 1 7
    (by decide) (by decide) (by decide) (by decide) (by decide) (by decide) (by decide)
